import Mathlib

/-!
Verification development for the API-Check repository's concurrent
test-execution and endpoint-resolution engine.

The TypeScript source is shallowly embedded: pure functions become Lean
functions; the network, the wall clock and the UUID generator are passed in
as explicit oracle parameters; every `saveLog` call performed by an operation
is collected into an explicit list of `RequestLog` values, in call order.
JavaScript numbers that the code only ever uses as non-negative integers
(HTTP status, latency in ms, timestamps) are modelled as `Nat`.
-/

namespace ApiCheck

/-- A JSON value, modelling the dynamically-typed JavaScript values the
source passes around (request bodies, response bodies, log payloads).
Numbers are modelled as integers: the code never produces fractional JSON
numbers on the paths embedded here. -/
inductive Json where
  | null
  | bool (b : Bool)
  | num (n : Int)
  | str (s : String)
  | arr (elems : List Json)
  | obj (fields : List (String × Json))

/-- JavaScript property access `j.k` for a known key: defined on objects,
`undefined` (here `none`) on every other value. -/
def Json.jsGet (j : Json) (k : String) : Option Json :=
  match j with
  | .obj fs => (fs.find? (fun p => p.1 == k)).map (fun p => p.2)
  | _ => none

/-- JavaScript truthiness of a value: `null`, `false`, `0` and `""` are
falsy, everything else (including empty arrays and objects) is truthy. -/
def Json.truthy : Json → Bool
  | .null => false
  | .bool b => b
  | .num n => !(n == 0)
  | .str s => !(s == "")
  | .arr _ => true
  | .obj _ => true

/-- Truthiness of a possibly-`undefined` value (`undefined` is falsy). -/
def optTruthy : Option Json → Bool
  | some v => v.truthy
  | none => false

/-- JavaScript optional chaining `v?.k`: `undefined` when `v` is
`undefined` or `null`, otherwise property access. -/
def jsOptChain (v : Option Json) (k : String) : Option Json :=
  match v with
  | none => none
  | some .null => none
  | some j => j.jsGet k

/-- JavaScript optional-chained indexing `v?.[i]`. Indexing is modelled on
arrays; on other values (where the source never meaningfully indexes) it
yields `undefined`. -/
def jsIndex (v : Option Json) (i : Nat) : Option Json :=
  match v with
  | some (.arr xs) => xs.get? i
  | _ => none

/-- JavaScript `v?.length` of a possibly-undefined value: array length,
string length, a plain object's `length` property (possibly absent), and
`undefined` on every other value (optional chaining makes `null` and
`undefined` receivers yield `undefined` rather than throw). -/
def jsLength : Option Json → Option Json
  | some (.arr xs) => some (.num xs.length)
  | some (.str s) => some (.num s.length)
  | some (.obj fs) => Json.jsGet (.obj fs) "length"
  | _ => none

mutual

/-- JavaScript string coercion `String(v)` as used in template literals.
Array rendering recursively joins elements with commas (`null` inside an
array renders as the empty string); plain objects render as
"[object Object]". -/
def jsStringOf : Json → String
  | .null => "null"
  | .bool true => "true"
  | .bool false => "false"
  | .num n => toString n
  | .str s => s
  | .arr xs => jsStringOfList xs
  | .obj _ => "[object Object]"

/-- String coercion of an array's elements, joined by commas. -/
def jsStringOfList : List Json → String
  | [] => ""
  | x :: xs =>
    (match x with
     | .null => ""
     | j => jsStringOf j)
    ++ (if xs.isEmpty then "" else ",") ++ jsStringOfList xs

end

mutual

/-- Models `JSON.stringify` (up to insignificant whitespace and string
escaping, neither of which any embedded code path inspects). -/
def Json.stringify : Json → String
  | .null => "null"
  | .bool true => "true"
  | .bool false => "false"
  | .num n => toString n
  | .str s => "\"" ++ s ++ "\""
  | .arr xs => "[" ++ Json.stringifyList xs ++ "]"
  | .obj fs => "\x7b" ++ Json.stringifyFields fs ++ "\x7d"

/-- Stringify an array's elements, comma-separated. -/
def Json.stringifyList : List Json → String
  | [] => ""
  | x :: xs => Json.stringify x ++ (if xs.isEmpty then "" else ",") ++ Json.stringifyList xs

/-- Stringify an object's fields, comma-separated. -/
def Json.stringifyFields : List (String × Json) → String
  | [] => ""
  | f :: fs =>
    "\"" ++ f.1 ++ "\":" ++ Json.stringify f.2
    ++ (if fs.isEmpty then "" else ",") ++ Json.stringifyFields fs

end

/-- JavaScript object spread `(...base, ...extra)`: keys of `extra` override
keys of `base`; relative order of surviving `base` keys is kept. -/
def mergeFields (base extra : List (String × Json)) : List (String × Json) :=
  base.filter (fun p => !(extra.any (fun q => q.1 == p.1))) ++ extra

/-- Models JavaScript `String.prototype.trim` (strip leading and trailing
whitespace). -/
def jsTrim (s : String) : String :=
  ⟨((s.data.dropWhile Char.isWhitespace).reverse.dropWhile Char.isWhitespace).reverse⟩

/-- `s.endsWith(p)`. -/
def strEndsWith (s p : String) : Bool :=
  p.data.isSuffixOf s.data

/-- `s.startsWith(p)`. -/
def strStartsWith (s p : String) : Bool :=
  p.data.isPrefixOf s.data

/-- `s.slice(0, -n)`: drop the last `n` characters. -/
def strDropRight (s : String) (n : Nat) : String :=
  ⟨s.data.take (s.data.length - n)⟩

/-- `s.slice(0, n)`: take the first `n` characters. -/
def strTake (s : String) (n : Nat) : String :=
  ⟨s.data.take n⟩

/-- `s.slice(n)`: drop the first `n` characters. -/
def strDrop (s : String) (n : Nat) : String :=
  ⟨s.data.drop n⟩

/-- `s.split('\n')`. -/
def splitLines (s : String) : List String :=
  (s.data.splitOn '\n').map (fun l => ⟨l⟩)

/-- The natural number denoted by a digit sequence. -/
def natOfDigits (ds : List Char) : Nat :=
  ds.foldl (fun acc c => acc * 10 + (c.toNat - 48)) 0

/-- JavaScript `ToNumber` on a string (`none` = NaN): surrounding
whitespace is ignored, the empty string is 0, and an optional sign
followed by decimal digits with an optional fraction part denotes its
value. Exponent, hexadecimal and Infinity forms are not modelled (they
yield NaN here); no embedded code path produces them. -/
def jsStringToNumber (s : String) : Option Rat :=
  let t := (jsTrim s).data
  if t.isEmpty then some 0
  else
    let signAndRest : Rat × List Char :=
      match t with
      | '-' :: r => (-1, r)
      | '+' :: r => (1, r)
      | r => (1, r)
    let sign := signAndRest.1
    let intPart := signAndRest.2.takeWhile Char.isDigit
    let tail := signAndRest.2.dropWhile Char.isDigit
    match tail with
    | [] => if intPart.isEmpty then none else some (sign * (natOfDigits intPart : Rat))
    | '.' :: fracTail =>
      let fracPart := fracTail.takeWhile Char.isDigit
      let rest := fracTail.dropWhile Char.isDigit
      if rest.isEmpty && !(intPart.isEmpty && fracPart.isEmpty) then
        some (sign * ((natOfDigits intPart : Rat)
          + (natOfDigits fracPart : Rat) / ((10 : Rat) ^ fracPart.length)))
      else none
    | _ => none

/-- JavaScript `ToNumber` of a value (`none` = NaN): `null` is 0, booleans
are 0/1, strings parse as above, arrays convert through their string
rendering, plain objects are NaN. -/
def jsToNumber : Json → Option Rat
  | .null => some 0
  | .bool true => some 1
  | .bool false => some 0
  | .num n => some (n : Rat)
  | .str s => jsStringToNumber s
  | .arr xs => jsStringToNumber (jsStringOfList xs)
  | .obj _ => none

/-- The JavaScript comparison `v > 0` on a possibly-undefined value:
`undefined` and every NaN conversion compare false, everything else by its
numeric value. -/
def jsGtZero (v : Option Json) : Bool :=
  match v with
  | none => false
  | some j =>
    match jsToNumber j with
    | some q => decide (0 < q)
    | none => false

/-! ## Data model (src/types.ts) -/

/-- `connectionMode: 'standard' | 'custom'`. -/
inductive ConnectionMode where
  | standard
  | custom
deriving DecidableEq

/-- An element of the `features` capability list: `'chat' | 'models'`. -/
inductive Feature where
  | chat
  | models
deriving DecidableEq

/-- `ApiConfig` from src/types.ts. Optional TypeScript fields are `Option`;
`features` is `Option` as well because the code guards it with a truthiness
check (`api.features && ...`), tolerating legacy configs without the field. -/
structure ApiConfig where
  id : String
  name : String
  baseUrl : String
  apiKey : String
  connectionMode : ConnectionMode
  features : Option (List Feature)
  modelsEndpoint : Option String := none
  chatEndpoint : Option String := none
  customHeaders : Option (List (String × String)) := none
  customParams : Option (List (String × Json)) := none
  skipAutoCompletion : Option Bool := none
  autoV1 : Option Bool := none
  createdAt : Nat := 0

/-- `RequestLog` from src/types.ts. `responseBody` is `any` in the source
(either a parsed object or a raw text string); raw text is embedded as
`Json.str`. -/
structure RequestLog where
  id : String
  timestamp : Nat
  type : String
  apiId : String
  apiName : String
  model : Option String
  method : String
  url : String
  status : Nat
  latency : Nat
  requestBody : Option Json
  responseBody : Option Json := none
  error : Option String := none

/-- `TestResult` from src/types.ts (the latency-test result). Statuses are
kept as the literal strings the source uses. -/
structure TestResult where
  modelId : String
  latency : Nat
  status : String
  message : Option String := none
  timestamp : Nat
  statusCode : Option Nat := none
  requestBody : Option Json := none
  responseBody : Option Json := none

/-- `ToolTestResult` from src/types.ts. -/
structure ToolTestResult where
  modelId : String
  status : String
  latency : Nat
  requestBody : Json
  responseBody : Json
  message : Option String := none
  timestamp : Nat

/-- `SendMessageResult` from src/types.ts. -/
structure SendMessageResult where
  actualBody : String
  responseBody : String

/-! ## Network model

The `fetch` boundary is an oracle input: either the promise resolves with
a response, or it rejects with a JavaScript error (network failure, or the
`AbortError` produced when the per-call timeout fires). -/

/-- A thrown JavaScript error: its `name` (e.g. "AbortError", "TypeError",
plain "Error") and its `message`. -/
structure JsError where
  name : String
  message : String
deriving DecidableEq

/-- An HTTP response as the code observes it. `rawText` is what
`response.text()` yields; `jsonBody` is what `response.json()` (equivalently
`JSON.parse` of the same body) yields — `.error e` models a parse failure
throwing `e`. `chunks` models the streaming body reader: `none` when
`response.body` is unavailable, otherwise the list of decoded text chunks. -/
structure HttpResponse where
  status : Nat
  statusText : String
  rawText : String
  jsonBody : Except JsError Json
  chunks : Option (List String) := none

/-- Outcome of one `fetch` call: resolution with a response, or rejection
with an error. -/
inductive FetchOutcome where
  | success (r : HttpResponse)
  | failure (e : JsError)

/-- `response.ok`: status in [200, 300). -/
def respOk (r : HttpResponse) : Bool :=
  200 ≤ r.status && r.status < 300

/-! ## Endpoint Resolver (getEndpoint in the api service) -/

/-- The request kind argument `type: 'models' | 'chat'`. -/
inductive EndpointKind where
  | models
  | chat
deriving DecidableEq

/-- `x || ''` on an optional string. -/
def orEmpty : Option String → String
  | some s => s
  | none => ""

/-- `getEndpoint` from the api service: derive the request URL from an
`ApiConfig` and the request kind. -/
def getEndpoint (api : ApiConfig) (type : EndpointKind) : String :=
  if api.connectionMode = .custom then
    match type with
    | .models => orEmpty api.modelsEndpoint
    | .chat => orEmpty api.chatEndpoint
  else
    let baseUrl := jsTrim api.baseUrl
    let baseUrl := if strEndsWith baseUrl "/" then strDropRight baseUrl 1 else baseUrl
    if api.skipAutoCompletion.getD false then
      baseUrl ++ "/" ++ (match type with | .models => "models" | .chat => "chat/completions")
    else
      let autoV1 := api.autoV1.getD true
      if !autoV1 then
        baseUrl
      else
        let suffix := match type with | .models => "models" | .chat => "chat/completions"
        if strEndsWith baseUrl "/v1" then
          baseUrl ++ "/" ++ suffix
        else
          baseUrl ++ "/v1/" ++ suffix

/-- The resolver exactly as claim C1 words it: in standard mode only a
trailing slash is trimmed from `baseUrl` (no whitespace trimming). -/
def resolveClaimC1 (api : ApiConfig) (type : EndpointKind) : String :=
  if api.connectionMode = .custom then
    match type with
    | .models => orEmpty api.modelsEndpoint
    | .chat => orEmpty api.chatEndpoint
  else
    let base := if strEndsWith api.baseUrl "/" then strDropRight api.baseUrl 1 else api.baseUrl
    let suffix := match type with | .models => "models" | .chat => "chat/completions"
    if api.skipAutoCompletion.getD false then
      base ++ "/" ++ suffix
    else if api.autoV1 = some false then
      base
    else if strEndsWith base "/v1" then
      base ++ "/" ++ suffix
    else
      base ++ "/v1/" ++ suffix

/-- The resolver as claim C1 amended: identical to `resolveClaimC1` except
that `baseUrl` is first stripped of surrounding whitespace, then of a
trailing slash. -/
def resolveAmendedC1 (api : ApiConfig) (type : EndpointKind) : String :=
  if api.connectionMode = .custom then
    match type with
    | .models => orEmpty api.modelsEndpoint
    | .chat => orEmpty api.chatEndpoint
  else
    let b0 := jsTrim api.baseUrl
    let base := if strEndsWith b0 "/" then strDropRight b0 1 else b0
    let suffix := match type with | .models => "models" | .chat => "chat/completions"
    if api.skipAutoCompletion.getD false then
      base ++ "/" ++ suffix
    else if api.autoV1 = some false then
      base
    else if strEndsWith base "/v1" then
      base ++ "/" ++ suffix
    else
      base ++ "/v1/" ++ suffix

/-! ## Audit Log Sink (dbService)

`saveLog` issues an IndexedDB `store.add(log)` against an object store
keyed by `id`: adding a record whose key already exists fails, and the
failure never reaches the probe (`saveLog` is fire-and-forget and its
internal rejection is not observed by the caller).  The durable store is
modelled as a list of records; `applyLog` is the effect of one `saveLog`
call on it. -/

/-- Effect of one `saveLog` call on the store: append, unless a record with
the same id already exists (keyed `store.add` fails and is swallowed). -/
def applyLog (db : List RequestLog) (l : RequestLog) : List RequestLog :=
  if db.any (fun r => r.id == l.id) then db else db ++ [l]

/-- Effect of a sequence of `saveLog` calls, in call order. -/
def applyLogs (db : List RequestLog) (calls : List RequestLog) : List RequestLog :=
  calls.foldl applyLog db

/-! ## Probe Executor (api service)

Each operation is embedded as a pure function of its configuration, its
oracle inputs (the `fetch` outcome, the generated UUID, the `Date.now`
timestamp, and the two rounded `performance.now` deltas — one observed
where the code measures a completed response, one observed inside the
`catch` block), returning the operation's result (`Except` for the
operations that can throw) paired with the ordered list of `saveLog`
calls it issued. -/

/-- `createLogEntry` from the api service. -/
def createLogEntry (api : ApiConfig) (type : String) (url : String) (method : String)
    (model : Option Json := none) (requestBody : Option Json := none)
    (uuid : String := "") (tnow : Nat := 0) : RequestLog :=
  { id := uuid
    timestamp := tnow
    type := type
    apiId := api.id
    apiName := api.name
    model := match model with
             | some (.str s) => some s
             | _ => none
    method := method
    url := url
    status := 0
    latency := 0
    requestBody := requestBody }

/-- The concise error message `fetchModels` builds for a non-2xx response:
HTTP status and text, then either the provider's nested `error.message` or
the first 200 characters of the raw body. -/
def fetchModelsErrorMsg (r : HttpResponse) : String :=
  let base := "HTTP " ++ toString r.status ++ " " ++ r.statusText
  match r.jsonBody with
  | .ok j =>
    match j.jsGet "error" with
    | some ej =>
      if ej.truthy then
        match ej.jsGet "message" with
        | some m =>
          if m.truthy then base ++ ": " ++ jsStringOf m
          else base ++ ": " ++ strTake r.rawText 200
        | none => base ++ ": " ++ strTake r.rawText 200
      else base ++ ": " ++ strTake r.rawText 200
    | none => base ++ ": " ++ strTake r.rawText 200
  | .error _ => base ++ ": " ++ strTake r.rawText 200

/-- `fetchModels` from the api service. Returns the parsed model list, or
the thrown error, together with the `saveLog` calls made. -/
def fetchModels (api : ApiConfig) (uuid : String) (tnow : Nat)
    (outcome : FetchOutcome) (elapsedResp elapsedCatch : Nat) :
    Except JsError (List Json) × List RequestLog :=
  let skipFetch := match api.features with
                   | some fs => !(fs.contains Feature.models)
                   | none => false
  if skipFetch then
    (.ok [], [])
  else
    let url := getEndpoint api .models
    if url = "" then
      (.error ⟨"Error", "未配置模型列表接口地址"⟩, [])
    else
      let log0 := createLogEntry api "models" url "GET" none none uuid tnow
      -- The shared catch block: update latency and error, save, map
      -- AbortError to the dedicated timeout message, rethrow.
      let catchWith := fun (lg : RequestLog) (e : JsError) (prior : List RequestLog) =>
        let lg' := { lg with latency := elapsedCatch, error := some e.message }
        let thrown := if e.name = "AbortError"
                      then (⟨"Error", "请求超时 (10秒)，请检查网络连接或代理设置"⟩ : JsError)
                      else e
        ((.error thrown : Except JsError (List Json)), prior ++ [lg'])
      match outcome with
      | .failure e => catchWith log0 e []
      | .success r =>
        let log1 := { log0 with latency := elapsedResp, status := r.status }
        if respOk r then
          match r.jsonBody with
          | .error e => catchWith log1 e []
          | .ok data =>
            let log2 := { log1 with responseBody := some data }
            match data with
            | .arr xs => (.ok xs, [log2])
            | _ =>
              match data.jsGet "data" with
              | some (.arr ys) => (.ok ys, [log2])
              | _ =>
                catchWith log2
                  ⟨"Error", "返回数据格式不符合 OpenAI 标准 (缺少 array 或 data 字段)"⟩ [log2]
        else
          let errorText := r.rawText
          let log3 := { log1 with responseBody := some (.str errorText), error := some errorText }
          catchWith log3 ⟨"Error", fetchModelsErrorMsg r⟩ [log3]

/-- The request body `testModelLatency` builds: a minimal 1-token chat
completion, with the config's fixed custom parameters spread over it. -/
def latencyRequestBody (api : ApiConfig) (modelId : String) (stream : Bool) : Json :=
  .obj (mergeFields
    [("model", .str modelId),
     ("messages", .arr [.obj [("role", .str "user"), ("content", .str "Hi")]]),
     ("max_tokens", .num 1),
     ("stream", .bool stream)]
    (api.customParams.getD []))

/-- The short error message `testModelLatency` builds for a non-2xx
response. -/
def latencyShortMsg (r : HttpResponse) : String :=
  let base := "HTTP " ++ toString r.status
  match r.jsonBody with
  | .ok j =>
    if optTruthy (jsOptChain (j.jsGet "error") "message") then
      base ++ ": " ++ jsStringOf ((jsOptChain (j.jsGet "error") "message").getD .null)
    else if optTruthy (j.jsGet "message") then
      base ++ ": " ++ jsStringOf ((j.jsGet "message").getD .null)
    else
      base ++ " " ++ r.statusText
  | .error _ => base ++ " " ++ r.statusText

/-- The `stream_content` summary object the latency test logs after
draining a streamed body: the accumulated text truncated to 1000
characters. -/
def streamContentSummary (chunks : Option (List String)) : Json :=
  let accumulated := String.join (chunks.getD [])
  .obj [("stream_content",
         .str (strTake accumulated 1000 ++ (if accumulated.length > 1000 then "..." else "")))]

/-- `testModelLatency` from the api service. Total: every failure is caught
internally and converted to a `status := "error"` result. -/
def testModelLatency (api : ApiConfig) (modelId : String) (timeoutSeconds : Nat)
    (stream : Bool) (uuid : String) (tnow : Nat)
    (outcome : FetchOutcome) (elapsedResp elapsedCatch : Nat) :
    TestResult × List RequestLog :=
  let url := getEndpoint api .chat
  if url = "" then
    ({ modelId := modelId, latency := 0, status := "error",
       message := some "未配置对话接口", timestamp := tnow }, [])
  else
    let requestBody := latencyRequestBody api modelId stream
    let log0 := createLogEntry api "test" url "POST" (some (.str modelId)) (some requestBody) uuid tnow
    -- The catch block: update the log, save it, and return an error result
    -- whose message distinguishes AbortError as a timeout.
    let catchWith := fun (lg : RequestLog) (e : JsError) =>
      let lg' := { lg with latency := elapsedCatch, error := some e.message }
      let msg := if e.name = "AbortError"
                 then "请求超时 (" ++ toString timeoutSeconds ++ "s)"
                 else (if e.message = "" then "网络错误" else e.message)
      (({ modelId := modelId, latency := 0, status := "error", message := some msg,
          timestamp := tnow, statusCode := some 0, requestBody := some requestBody,
          responseBody := some (.str e.message) } : TestResult), [lg'])
    match outcome with
    | .failure e => catchWith log0 e
    | .success r =>
      let log1 := { log0 with status := r.status, latency := elapsedResp }
      if respOk r then
        if stream then
          let data := streamContentSummary r.chunks
          let log2 := { log1 with responseBody := some data }
          ({ modelId := modelId, latency := log1.latency, status := "success",
             timestamp := tnow, statusCode := some r.status,
             requestBody := some requestBody, responseBody := some data }, [log2])
        else
          match r.jsonBody with
          | .error e => catchWith log1 e
          | .ok data =>
            let log2 := { log1 with responseBody := some data }
            ({ modelId := modelId, latency := log1.latency, status := "success",
               timestamp := tnow, statusCode := some r.status,
               requestBody := some requestBody, responseBody := some data }, [log2])
      else
        let errorText := r.rawText
        let log2 := { log1 with responseBody := some (.str errorText), error := some errorText }
        ({ modelId := modelId, latency := 0, status := "error",
           message := some (latencyShortMsg r), timestamp := tnow,
           statusCode := some r.status, requestBody := some requestBody,
           responseBody := some (.str errorText) }, [log2])

/-- The synthetic tool definition `testModelToolSupport` sends: a single
`get_weather` function taking a `location` string. -/
def dummyTools : Json :=
  .arr [.obj
    [("type", .str "function"),
     ("function", .obj
       [("name", .str "get_weather"),
        ("description", .str "Get the current weather"),
        ("parameters", .obj
          [("type", .str "object"),
           ("properties", .obj [("location", .obj [("type", .str "string")])]),
           ("required", .arr [.str "location"])])])]]

/-- The request body `testModelToolSupport` builds. -/
def toolRequestBody (api : ApiConfig) (modelId : String) : Json :=
  .obj (mergeFields
    [("model", .str modelId),
     ("messages", .arr [.obj [("role", .str "user"),
                              ("content", .str "What is the weather in Tokyo?")]]),
     ("tools", dummyTools),
     ("tool_choice", .str "auto"),
     ("max_tokens", .num 50)]
    (api.customParams.getD []))

/-- The tool-call detection `testModelToolSupport` applies to a parsed 2xx
body: `choices?.[0]?.message?.tool_calls?.length > 0 ||
choices?.[0]?.message?.function_call` (the latter a truthiness test). -/
def hasToolCalls (data : Json) : Bool :=
  let choice := jsIndex (data.jsGet "choices") 0
  let message := jsOptChain choice "message"
  jsGtZero (jsLength (jsOptChain message "tool_calls"))
  || optTruthy (jsOptChain message "function_call")

/-- `testModelToolSupport` from the api service. Total: every failure is
caught internally and converted to a `status := "error"` result. -/
def testModelToolSupport (api : ApiConfig) (modelId : String) (timeoutSeconds : Nat)
    (uuid : String) (tnow : Nat)
    (outcome : FetchOutcome) (elapsedResp elapsedCatch : Nat) :
    ToolTestResult × List RequestLog :=
  let url := getEndpoint api .chat
  if url = "" then
    ({ modelId := modelId, latency := 0, status := "error",
       message := some "未配置对话接口", timestamp := tnow,
       requestBody := .obj [], responseBody := .obj [] }, [])
  else
    let requestBody := toolRequestBody api modelId
    let log0 := createLogEntry api "tool_check" url "POST" (some (.str modelId)) (some requestBody) uuid tnow
    -- The catch block: update the log, save it, return an error result.
    let catchWith := fun (lg : RequestLog) (e : JsError) =>
      let lg' := { lg with latency := elapsedCatch, error := some e.message }
      (({ modelId := modelId, status := "error", latency := 0,
          requestBody := requestBody, responseBody := .str e.message,
          message := some e.message, timestamp := tnow } : ToolTestResult), [lg'])
    match outcome with
    | .failure e => catchWith log0 e
    | .success r =>
      let log1 := { log0 with status := r.status, latency := elapsedResp }
      if respOk r then
        match r.jsonBody with
        | .error e => catchWith log1 e
        | .ok data =>
          let log2 := { log1 with responseBody := some data }
          let supported := hasToolCalls data
          ({ modelId := modelId,
             status := if supported then "supported" else "unsupported",
             latency := elapsedResp,
             requestBody := requestBody, responseBody := data,
             message := some (if supported then "Successfully triggered tool call"
                              else "Model returned text instead of tool call"),
             timestamp := tnow }, [log2])
      else
        let errorText := r.rawText
        let log2 := { log1 with responseBody := some (.str errorText), error := some errorText }
        ({ modelId := modelId, status := "error", latency := elapsedResp,
           requestBody := requestBody, responseBody := .str errorText,
           message := some ("HTTP " ++ toString r.status), timestamp := tnow }, [log2])

/-! ## sendChatMessage (api service)

The SSE stream is an oracle `List String` of decoded chunks; `JSON.parse`
applied to individual `data: ` lines is the oracle `parseSSE` (its parse
failures are swallowed by the code). The `onChunk` callback is modelled by
collecting the emitted content fragments, in order. -/

/-- Result of one `sendChatMessage` call: the returned value or thrown
error, the `saveLog` calls in order, and the `onChunk` emissions in
order. -/
structure ChatCall where
  outcome : Except JsError SendMessageResult
  calls : List RequestLog
  emitted : List String

/-- The body `sendChatMessage` actually sends:
`(...requestBody, ...api.customParams)`. -/
def chatFinalBody (api : ApiConfig) (requestBody : Json) : Json :=
  .obj (mergeFields
    (match requestBody with | .obj fs => fs | _ => [])
    (api.customParams.getD []))

/-- Processing of one SSE line by the streaming loop: for a `data: ` line
other than the `[DONE]` sentinel, parse the payload and extract
`choices[0].delta.content`; deliver it when truthy. Returns the delivered
fragment, if any. -/
def processSSELine (parseSSE : String → Option Json) (line : String) : Option String :=
  if strStartsWith line "data: " && !(line == "data: [DONE]") then
    match parseSSE (strDrop line 6) with
    | some j =>
      let content := jsOptChain (jsOptChain (jsIndex (j.jsGet "choices") 0) "delta") "content"
      match content with
      | some v => if v.truthy then some (jsStringOf v) else none
      | none => none
    | none => none
  else none

/-- All fragments the streaming loop delivers for a chunk sequence. -/
def sseFragments (parseSSE : String → Option Json) (chunks : List String) : List String :=
  chunks.flatMap (fun chunk => (splitLines chunk).filterMap (processSSELine parseSSE))

/-- `sendChatMessage` from the api service. -/
def sendChatMessage (api : ApiConfig) (requestBody : Json)
    (parseSSE : String → Option Json) (uuid : String) (tnow : Nat)
    (outcome : FetchOutcome) (elapsedResp elapsedCatch : Nat) : ChatCall :=
  let url := getEndpoint api .chat
  if url = "" then
    ⟨.error ⟨"Error", "Chat Endpoint not configured"⟩, [], []⟩
  else
    let finalBody := chatFinalBody api requestBody
    let log0 := createLogEntry api "chat" url "POST" (requestBody.jsGet "model") (some finalBody) uuid tnow
    -- The catch block: `if (!log.status) log.status = 0` (a no-op in this
    -- model, where status is a Nat already defaulted to 0), update latency
    -- and error, save, rethrow.
    let catchWith := fun (lg : RequestLog) (e : JsError) (prior : List RequestLog) (em : List String) =>
      let lg' := { lg with latency := elapsedCatch, error := some e.message }
      (⟨.error e, prior ++ [lg'], em⟩ : ChatCall)
    match outcome with
    | .failure e => catchWith log0 e [] []
    | .success r =>
      let log1 := { log0 with status := r.status }
      if !(respOk r) then
        let text := r.rawText
        let log2 := { log1 with responseBody := some (.str text), error := some text,
                                latency := elapsedResp }
        let errorDetail :=
          match r.jsonBody with
          | .ok j =>
            match j.jsGet "error" with
            | some ej => if ej.truthy then Json.stringify ej else text
            | none => text
          | .error _ => text
        let thrown : JsError :=
          ⟨"Error", "[" ++ toString r.status ++ " " ++ r.statusText ++ "]\n" ++ errorDetail⟩
        catchWith log2 thrown [log2] []
      else if optTruthy (finalBody.jsGet "stream") then
        match r.chunks with
        | none => catchWith log1 ⟨"Error", "没有响应内容"⟩ [] []
        | some chunks =>
          let rawStream := String.join chunks
          let fragments := sseFragments parseSSE chunks
          let fullText := String.join fragments
          let summary : Json := .obj
            [("stream_length", .num rawStream.length),
             ("generated_text", .str fullText)]
          let log2 := { log1 with latency := elapsedResp, responseBody := some summary }
          ⟨.ok ⟨Json.stringify finalBody, rawStream⟩, [log2], fragments⟩
      else
        match r.jsonBody with
        | .error e => catchWith log1 e [] []
        | .ok data =>
          let log2 := { log1 with latency := elapsedResp, responseBody := some data }
          let content :=
            match jsOptChain (jsOptChain (jsIndex (data.jsGet "choices") 0) "message") "content" with
            | some v => if v.truthy then jsStringOf v else ""
            | none => ""
          ⟨.ok ⟨Json.stringify finalBody, Json.stringify data⟩, [log2], [content]⟩

/-! ## Aggregator (runTests in Dashboard.tsx)

After each completed round for a model, the worker recomputes the
aggregated result from the full list of that model's rounds so far
(`sessionResults[modelId]`). The recomputation is embedded as a pure
function of that ordered list. -/

/-- The test mode driving the aggregation (`activeTestMode`). -/
inductive TestMode where
  | latency
  | tool
deriving DecidableEq

/-- The per-round fields the aggregation reads from a `TestResult` or
`ToolTestResult`: latency, status string, and optional message. -/
structure RoundResult where
  latency : Nat
  status : String
  message : Option String := none
deriving DecidableEq

/-- The aggregated values the worker computes and stores. -/
structure AggResult where
  avgLatency : Nat
  successCount : Nat
  status : String
  message : String
deriving DecidableEq

/-- `Math.round(s / n)` on non-negative integers: round half up. -/
def jsRoundDiv (s n : Nat) : Nat :=
  (2 * s + n) / (2 * n)

/-- Whether a round counts as a success for the given mode
(`status === 'success'` in latency mode, `'supported'` in tool mode). -/
def roundIsSuccess (mode : TestMode) (r : RoundResult) : Bool :=
  match mode with
  | .latency => r.status == "success"
  | .tool => r.status == "supported"

/-- Rendering of `result.message` inside a template literal (`undefined`
when the field is absent). -/
def jsMsg : Option String → String
  | some s => s
  | none => "undefined"

/-- The aggregation step from `runTests`: recompute average latency,
success count, overall status and display message from all rounds so far.
`rounds` is the configured round count used in the message. -/
def aggregate (mode : TestMode) (rounds : Nat) (runs : List RoundResult) : AggResult :=
  let totalRuns := runs.length
  let sumLatency := (runs.map (fun r => r.latency)).sum
  let avgLatency := jsRoundDiv sumLatency totalRuns
  let successCount := runs.countP (fun r => roundIsSuccess mode r)
  let hasSuccess := 0 < successCount
  let base := match mode with
              | .latency => if hasSuccess then "success" else "error"
              | .tool => if hasSuccess then "supported" else "unsupported"
  let status := if mode = .tool ∧ successCount = 0 ∧ runs.any (fun r => r.status == "error")
                then "error" else base
  let lastMsg := match runs.getLast? with
                 | some r => jsMsg r.message
                 | none => "undefined"
  let message := "Runs: " ++ toString successCount ++ "/" ++ toString rounds
                 ++ " OK. Avg: " ++ toString avgLatency ++ "ms. "
                 ++ (if 1 < rounds then "Last: " ++ lastMsg else lastMsg)
  ⟨avgLatency, successCount, status, message⟩

/-- The incremental fold as the worker performs it: starting from the empty
session list, append each completed round and recompute; returns every
intermediate aggregate, in order. -/
def foldRounds (mode : TestMode) (rounds : Nat) (seq : List RoundResult) : List AggResult :=
  (List.range seq.length).map (fun i => aggregate mode rounds (seq.take (i + 1)))

/-! ## Concurrency Scheduler (runTests in Dashboard.tsx, handleStart in
BulkTestView.tsx)

`Math.min(concurrency, queue.length)` workers each loop
"`while (queue.length > 0) { const t = queue.shift(); ... await probe ... }`"
against one shared queue. The length check and the `shift` happen in one
synchronous slice of the single-threaded event loop, so the dequeue is
atomic; workers interleave only at `await` points. The run is
`Promise.all(workers)`: it resolves once every worker's loop has exited.

This is embedded as a small-step transition system over worker statuses:
a worker either atomically pops the queue head and goes busy, observes the
empty queue and exits, or completes its in-flight task, appending its
result. -/

/-- Status of one worker: between iterations, probing a task, or exited. -/
inductive WStatus (α : Type) where
  | idle
  | busy (t : α)
  | done
deriving DecidableEq

/-- Scheduler state: the shared queue, the pool of workers, and the results
produced so far (in completion order). -/
structure SchedState (α : Type) where
  queue : List α
  workers : List (WStatus α)
  results : List α
deriving DecidableEq

/-- The initial state of one run: the flattened task queue and
`Math.min(concurrency, queue.length)` idle workers. -/
def SchedState.init (tasks : List α) (concurrency : Nat) : SchedState α :=
  ⟨tasks, List.replicate (min concurrency tasks.length) .idle, []⟩

/-- One scheduler transition, following the worker loop
`while (queue.length > 0) { const modelId = queue.shift(); if (modelId) { ... } }`
(tasks are model-id strings). `pop`: an idle worker atomically checks the
queue nonempty and removes its head; a truthy (non-empty-string) task
passes the `if (modelId)` guard and goes in flight. `drop`: a falsy task
(the empty string) fails the guard — the worker discards it and loops
again, and no probe runs and no result is ever produced for it. `exit`:
an idle worker observes the empty queue and leaves its loop. `finish`: a
busy worker's probe completes and its result is recorded. -/
inductive SchedStep : SchedState String → SchedState String → Prop where
  | pop (t : String) (q : List String) (l₁ l₂ : List (WStatus String)) (rs : List String)
      (ht : t ≠ "") :
      SchedStep ⟨t :: q, l₁ ++ .idle :: l₂, rs⟩ ⟨q, l₁ ++ .busy t :: l₂, rs⟩
  | drop (q : List String) (l₁ l₂ : List (WStatus String)) (rs : List String) :
      SchedStep ⟨"" :: q, l₁ ++ .idle :: l₂, rs⟩ ⟨q, l₁ ++ .idle :: l₂, rs⟩
  | exit (l₁ l₂ : List (WStatus String)) (rs : List String) :
      SchedStep ⟨[], l₁ ++ .idle :: l₂, rs⟩ ⟨[], l₁ ++ .done :: l₂, rs⟩
  | finish (t : String) (q : List String) (l₁ l₂ : List (WStatus String)) (rs : List String) :
      SchedStep ⟨q, l₁ ++ .busy t :: l₂, rs⟩ ⟨q, l₁ ++ .idle :: l₂, rs ++ [t]⟩

/-- Any interleaving of worker transitions. -/
def SchedReaches (s s' : SchedState String) : Prop :=
  Relation.ReflTransGen SchedStep s s'

/-- The run's `Promise.all` has resolved: every worker has exited. -/
def SchedState.terminal (s : SchedState α) : Prop :=
  ∀ w ∈ s.workers, w = WStatus.done

/-- The task a worker holds in flight, if any. -/
def WStatus.inflight : WStatus α → Option α
  | .busy t => some t
  | _ => none

/-! ## Helper lemmas about the audit-log effect -/

/-- No record of `db` carries id `u` (the freshly generated UUID). -/
def freshId (db : List RequestLog) (u : String) : Prop :=
  ∀ r ∈ db, r.id ≠ u

lemma applyLog_fresh (db : List RequestLog) (l : RequestLog)
    (h : ∀ r ∈ db, r.id ≠ l.id) : applyLog db l = db ++ [l] := by
  have hany : db.any (fun r => r.id == l.id) = false := by
    simp only [List.any_eq_false, beq_iff_eq]
    exact h
  simp [applyLog, hany]

lemma applyLog_dup (db : List RequestLog) (l : RequestLog)
    (h : ∃ r ∈ db, r.id = l.id) : applyLog db l = db := by
  have hany : db.any (fun r => r.id == l.id) = true := by
    simp only [List.any_eq_true, beq_iff_eq]
    exact h
  simp [applyLog, hany]

lemma applyLogs_stable (db : List RequestLog) (calls : List RequestLog) (u : String)
    (hall : ∀ l ∈ calls, l.id = u) (hmem : ∃ r ∈ db, r.id = u) :
    applyLogs db calls = db := by
  induction calls with
  | nil => rfl
  | cons c rest ih =>
    have hc : applyLog db c = db := by
      apply applyLog_dup
      obtain ⟨r, hr, hid⟩ := hmem
      exact ⟨r, hr, by rw [hid, hall c (List.mem_cons_self c rest)]⟩
    simpa [applyLogs, hc] using ih (fun l hl => hall l (List.mem_cons_of_mem c hl))

/-- The net effect of a nonempty burst of `saveLog` calls that all carry the
same fresh id: exactly one new record, carrying that id, is appended. -/
lemma applyLogs_one_new (db : List RequestLog) (calls : List RequestLog) (u : String)
    (hne : calls ≠ []) (hall : ∀ l ∈ calls, l.id = u) (hfresh : freshId db u) :
    (applyLogs db calls).length = db.length + 1 ∧
      ∃ l ∈ applyLogs db calls, l.id = u := by
  obtain ⟨c, rest, rfl⟩ := List.exists_cons_of_ne_nil hne
  have hcid : c.id = u := hall c (List.mem_cons_self c rest)
  have hstep : applyLog db c = db ++ [c] := by
    apply applyLog_fresh
    intro r hr
    rw [hcid]
    exact hfresh r hr
  have hrest : applyLogs (db ++ [c]) rest = db ++ [c] := by
    apply applyLogs_stable _ _ u
    · exact fun l hl => hall l (List.mem_cons_of_mem c hl)
    · exact ⟨c, by simp, hcid⟩
  have : applyLogs db (c :: rest) = db ++ [c] := by
    simpa [applyLogs, hstep] using hrest
  refine ⟨by simp [this], ⟨c, by simp [this], hcid⟩⟩

/-! ## Per-operation log-call lemmas -/

lemma fetchModels_calls_ids (api : ApiConfig) (u : String) (t : Nat) (o : FetchOutcome)
    (e1 e2 : Nat) : ∀ l ∈ (fetchModels api u t o e1 e2).2, l.id = u := by
  unfold fetchModels
  cases o
  all_goals repeat' split
  all_goals try simp_all [createLogEntry]
  all_goals repeat' split
  all_goals simp_all [createLogEntry]

lemma testModelLatency_calls_ids (api : ApiConfig) (m : String) (ts : Nat) (st : Bool)
    (u : String) (t : Nat) (o : FetchOutcome) (e1 e2 : Nat) :
    ∀ l ∈ (testModelLatency api m ts st u t o e1 e2).2, l.id = u := by
  unfold testModelLatency
  cases o
  all_goals repeat' split
  all_goals try simp_all [createLogEntry]
  all_goals repeat' split
  all_goals simp_all [createLogEntry]

lemma testModelToolSupport_calls_ids (api : ApiConfig) (m : String) (ts : Nat)
    (u : String) (t : Nat) (o : FetchOutcome) (e1 e2 : Nat) :
    ∀ l ∈ (testModelToolSupport api m ts u t o e1 e2).2, l.id = u := by
  unfold testModelToolSupport
  cases o
  all_goals repeat' split
  all_goals try simp_all [createLogEntry]
  all_goals repeat' split
  all_goals simp_all [createLogEntry]

set_option maxHeartbeats 2000000 in
lemma sendChatMessage_calls_ids (api : ApiConfig) (body : Json)
    (p : String → Option Json) (u : String) (t : Nat) (o : FetchOutcome) (e1 e2 : Nat) :
    ∀ l ∈ (sendChatMessage api body p u t o e1 e2).calls, l.id = u := by
  unfold sendChatMessage
  cases o
  all_goals repeat' split
  all_goals try simp_all [createLogEntry]
  all_goals repeat' split
  all_goals simp_all [createLogEntry]

set_option maxHeartbeats 1000000 in
lemma fetchModels_calls_ne (api : ApiConfig) (u : String) (t : Nat) (o : FetchOutcome)
    (e1 e2 : Nat)
    (hfeat : ∀ fs, api.features = some fs → Feature.models ∈ fs)
    (hurl : getEndpoint api .models ≠ "") :
    (fetchModels api u t o e1 e2).2 ≠ [] := by
  unfold fetchModels
  cases o
  all_goals repeat' split
  all_goals try simp_all
  all_goals repeat' split
  all_goals simp_all

set_option maxHeartbeats 1000000 in
lemma testModelLatency_calls_ne (api : ApiConfig) (m : String) (ts : Nat) (st : Bool)
    (u : String) (t : Nat) (o : FetchOutcome) (e1 e2 : Nat)
    (hurl : getEndpoint api .chat ≠ "") :
    (testModelLatency api m ts st u t o e1 e2).2 ≠ [] := by
  unfold testModelLatency
  cases o
  all_goals repeat' split
  all_goals try simp_all
  all_goals repeat' split
  all_goals simp_all

set_option maxHeartbeats 1000000 in
lemma testModelToolSupport_calls_ne (api : ApiConfig) (m : String) (ts : Nat)
    (u : String) (t : Nat) (o : FetchOutcome) (e1 e2 : Nat)
    (hurl : getEndpoint api .chat ≠ "") :
    (testModelToolSupport api m ts u t o e1 e2).2 ≠ [] := by
  unfold testModelToolSupport
  cases o
  all_goals repeat' split
  all_goals try simp_all
  all_goals repeat' split
  all_goals simp_all

set_option maxHeartbeats 1000000 in
lemma sendChatMessage_calls_ne (api : ApiConfig) (body : Json)
    (p : String → Option Json) (u : String) (t : Nat) (o : FetchOutcome) (e1 e2 : Nat)
    (hurl : getEndpoint api .chat ≠ "") :
    (sendChatMessage api body p u t o e1 e2).calls ≠ [] := by
  unfold sendChatMessage
  cases o
  all_goals repeat' split
  all_goals try simp_all
  all_goals repeat' split
  all_goals simp_all

/-! ## Concrete fixtures used by witnesses and counterexamples -/

/-- A plain standard-mode config with default `/v1` behaviour. -/
def cfgStd : ApiConfig :=
  { id := "api-1", name := "Demo", baseUrl := "https://api.example.com",
    apiKey := "sk-test", connectionMode := .standard,
    features := some [.chat, .models] }

/-- A standard-mode config whose baseUrl carries surrounding whitespace. -/
def cfgWs : ApiConfig :=
  { cfgStd with baseUrl := " https://api.example.com" }

/-- A custom-mode config with neither endpoint configured. -/
def cfgCustomNoEp : ApiConfig :=
  { cfgStd with connectionMode := .custom }

/-- A config whose features list is present but excludes `models`. -/
def cfgChatOnly : ApiConfig :=
  { cfgStd with features := some [.chat] }

/-- Gate on `fetchModels`: the features list, when present, includes
`models` (otherwise the call returns `[]` without doing anything). -/
def modelsEnabled (api : ApiConfig) : Bool :=
  match api.features with
  | some fs => fs.contains Feature.models
  | none => true

lemma modelsEnabled_spec (api : ApiConfig) (h : modelsEnabled api = true) :
    ∀ fs, api.features = some fs → Feature.models ∈ fs := by
  intro fs hfs
  unfold modelsEnabled at h
  rw [hfs] at h
  simpa using h

/-! ## Claim C1 — endpoint resolution -/

/--
C1 (amended): for every `ApiConfig` and request kind, `getEndpoint`
returns: in custom mode the stored endpoint verbatim (empty string if
unset); in standard mode, after trimming surrounding whitespace and then a
trailing slash from `baseUrl`: with `skipAutoCompletion`, the base plus
`/models` or `/chat/completions` with no `/v1`; else with `autoV1`
explicitly false, the trimmed base unchanged; else append the suffix
directly when the base already ends in `/v1`, otherwise insert `/v1/`.
In particular the spec's example resolves as stated.
-/
theorem C1_endpoint_resolution :
    (∀ (api : ApiConfig) (k : EndpointKind), getEndpoint api k = resolveAmendedC1 api k) ∧
    getEndpoint cfgStd .chat = "https://api.example.com/v1/chat/completions" := by
  constructor
  · intro api k
    obtain ⟨i, n, b, a, mode, f, me, ce, hh, pp, skip, av, ca⟩ := api
    cases mode <;> cases k <;>
      rcases skip with _ | (_ | _) <;>
      rcases av with _ | (_ | _) <;>
      simp [getEndpoint, resolveAmendedC1]
  · decide

/--
C1 counterexample: the claim as stated (only a trailing slash is trimmed
from `baseUrl`) disagrees with the code on a `baseUrl` carrying
surrounding whitespace — the code also strips the whitespace.
-/
theorem C1_counterexample :
    getEndpoint cfgWs .chat = "https://api.example.com/v1/chat/completions" ∧
    resolveClaimC1 cfgWs .chat = " https://api.example.com/v1/chat/completions" ∧
    getEndpoint cfgWs .chat ≠ resolveClaimC1 cfgWs .chat := by
  decide

/-! ## Claim C10 — the features gate of fetchModels -/

/--
C10: for every `ApiConfig` whose features list is present and does not
include `models`, `fetchModels` returns the empty model list immediately —
independently of the network outcome — and writes no log record.
-/
theorem C10_features_gate (api : ApiConfig) (fs : List Feature) (u : String) (t : Nat)
    (o : FetchOutcome) (e1 e2 : Nat)
    (hf : api.features = some fs) (hm : Feature.models ∉ fs) :
    fetchModels api u t o e1 e2 = (.ok [], []) := by
  unfold fetchModels
  rw [hf]
  simp [hm]

/-- Witness for C10 at a concrete chat-only config and a network outcome
that would otherwise fail. -/
theorem C10_features_gate_witness :
    cfgChatOnly.features = some [Feature.chat] ∧
    Feature.models ∉ [Feature.chat] ∧
    fetchModels cfgChatOnly "id-1" 0 (.failure ⟨"TypeError", "Failed to fetch"⟩) 1 2
      = (.ok [], []) :=
  ⟨rfl, by decide,
   C10_features_gate cfgChatOnly [Feature.chat] "id-1" 0
     (.failure ⟨"TypeError", "Failed to fetch"⟩) 1 2 rfl (by decide)⟩

/-! ## Claim C7 — timeout reporting -/

lemma skipFetch_false_of_enabled (api : ApiConfig) (hfeat : modelsEnabled api = true) :
    (match api.features with
     | some fs => !(fs.contains Feature.models)
     | none => false) = false := by
  unfold modelsEnabled at hfeat
  cases hfs : api.features with
  | none => simp
  | some fs =>
    rw [hfs] at hfeat
    simp at hfeat
    simp [hfeat]

/--
C7: an expired deadline aborting the in-flight request is reported as a
distinct timed-out error: `fetchModels` (fixed 10-second deadline) throws
its dedicated timeout message, and `testModelLatency` returns status
"error", latency 0, statusCode 0 and a message naming the configured
timeout in seconds.
-/
theorem C7_timeout_reporting :
    (∀ (api : ApiConfig) (u : String) (t : Nat) (m : String) (e1 e2 : Nat),
       modelsEnabled api = true → getEndpoint api .models ≠ "" →
       (fetchModels api u t (.failure ⟨"AbortError", m⟩) e1 e2).1
         = .error ⟨"Error", "请求超时 (10秒)，请检查网络连接或代理设置"⟩) ∧
    (∀ (api : ApiConfig) (modelId : String) (ts : Nat) (stream : Bool)
       (u : String) (t : Nat) (m : String) (e1 e2 : Nat),
       getEndpoint api .chat ≠ "" →
       let res := (testModelLatency api modelId ts stream u t (.failure ⟨"AbortError", m⟩) e1 e2).1
       res.status = "error" ∧ res.latency = 0 ∧ res.statusCode = some 0 ∧
         res.message = some ("请求超时 (" ++ toString ts ++ "s)")) := by
  constructor
  · intro api u t m e1 e2 hfeat hurl
    unfold fetchModels
    rw [skipFetch_false_of_enabled api hfeat]
    simp [hurl]
  · intro api modelId ts stream u t m e1 e2 hurl
    unfold testModelLatency
    simp [hurl]

/-- Witness for C7 at a concrete config: an aborted `fetchModels` throws
the dedicated 10-second timeout message, and an aborted one-second
`testModelLatency` reports the timed-out error result. -/
theorem C7_timeout_reporting_witness :
    (fetchModels cfgStd "id-2" 0 (.failure ⟨"AbortError", "The operation was aborted."⟩) 3 7).1
      = .error ⟨"Error", "请求超时 (10秒)，请检查网络连接或代理设置"⟩ ∧
    (testModelLatency cfgStd "gpt-4" 1 false "id-3" 0
        (.failure ⟨"AbortError", "The operation was aborted."⟩) 3 7).1.status = "error" ∧
    (testModelLatency cfgStd "gpt-4" 1 false "id-3" 0
        (.failure ⟨"AbortError", "The operation was aborted."⟩) 3 7).1.latency = 0 ∧
    (testModelLatency cfgStd "gpt-4" 1 false "id-3" 0
        (.failure ⟨"AbortError", "The operation was aborted."⟩) 3 7).1.statusCode = some 0 ∧
    (testModelLatency cfgStd "gpt-4" 1 false "id-3" 0
        (.failure ⟨"AbortError", "The operation was aborted."⟩) 3 7).1.message
      = some "请求超时 (1s)" := by
  have h1 := C7_timeout_reporting.1 cfgStd "id-2" 0 "The operation was aborted." 3 7
    (by decide) (by decide)
  have h2 := C7_timeout_reporting.2 cfgStd "gpt-4" 1 false "id-3" 0
    "The operation was aborted." 3 7 (by decide)
  exact ⟨h1, h2.1, h2.2.1, h2.2.2.1, h2.2.2.2⟩

/-! ## Claim C3 — failure propagation -/

/--
C2 (amended): every call to one of the four Probe Executor operations that
passes its configuration gates (a resolvable endpoint; for `fetchModels`
also the features gate) adds exactly one new LogRecord — carrying the
freshly generated id — to the audit store, on the success path and on every
failure path alike; the missing-endpoint paths and the skipped-features
path of `fetchModels` add none (see the counterexample).
-/
theorem C2_log_durability_amended (db : List RequestLog) (u : String) (hfresh : freshId db u) :
    (∀ (api : ApiConfig) (t : Nat) (o : FetchOutcome) (e1 e2 : Nat),
       modelsEnabled api = true → getEndpoint api .models ≠ "" →
       (applyLogs db (fetchModels api u t o e1 e2).2).length = db.length + 1 ∧
       ∃ l ∈ applyLogs db (fetchModels api u t o e1 e2).2, l.id = u) ∧
    (∀ (api : ApiConfig) (m : String) (ts : Nat) (st : Bool) (t : Nat)
       (o : FetchOutcome) (e1 e2 : Nat),
       getEndpoint api .chat ≠ "" →
       (applyLogs db (testModelLatency api m ts st u t o e1 e2).2).length = db.length + 1 ∧
       ∃ l ∈ applyLogs db (testModelLatency api m ts st u t o e1 e2).2, l.id = u) ∧
    (∀ (api : ApiConfig) (m : String) (ts : Nat) (t : Nat)
       (o : FetchOutcome) (e1 e2 : Nat),
       getEndpoint api .chat ≠ "" →
       (applyLogs db (testModelToolSupport api m ts u t o e1 e2).2).length = db.length + 1 ∧
       ∃ l ∈ applyLogs db (testModelToolSupport api m ts u t o e1 e2).2, l.id = u) ∧
    (∀ (api : ApiConfig) (body : Json) (p : String → Option Json) (t : Nat)
       (o : FetchOutcome) (e1 e2 : Nat),
       getEndpoint api .chat ≠ "" →
       (applyLogs db (sendChatMessage api body p u t o e1 e2).calls).length = db.length + 1 ∧
       ∃ l ∈ applyLogs db (sendChatMessage api body p u t o e1 e2).calls, l.id = u) := by
  refine ⟨?_, ?_, ?_, ?_⟩
  · intro api t o e1 e2 hfeat hurl
    exact applyLogs_one_new db _ u
      (fetchModels_calls_ne api u t o e1 e2 (modelsEnabled_spec api hfeat) hurl)
      (fetchModels_calls_ids api u t o e1 e2) hfresh
  · intro api m ts st t o e1 e2 hurl
    exact applyLogs_one_new db _ u
      (testModelLatency_calls_ne api m ts st u t o e1 e2 hurl)
      (testModelLatency_calls_ids api m ts st u t o e1 e2) hfresh
  · intro api m ts t o e1 e2 hurl
    exact applyLogs_one_new db _ u
      (testModelToolSupport_calls_ne api m ts u t o e1 e2 hurl)
      (testModelToolSupport_calls_ids api m ts u t o e1 e2) hfresh
  · intro api body p t o e1 e2 hurl
    exact applyLogs_one_new db _ u
      (sendChatMessage_calls_ne api body p u t o e1 e2 hurl)
      (sendChatMessage_calls_ids api body p u t o e1 e2) hfresh

/-- Witness for the amended C2: on an empty store and a fresh id, one
failed `fetchModels` call against the standard config leaves exactly one
retrievable record. -/
theorem C2_log_durability_witness :
    (applyLogs []
        (fetchModels cfgStd "id-8" 0 (.failure ⟨"TypeError", "Failed to fetch"⟩) 1 2).2).length
      = 0 + 1 :=
  ((C2_log_durability_amended [] "id-8" (fun r hr => absurd hr (List.not_mem_nil r))).1
    cfgStd 0 (.failure ⟨"TypeError", "Failed to fetch"⟩) 1 2 (by decide) (by decide)).1

/--
C2 counterexample: a `fetchModels` call against a custom-mode config with
no models endpoint is a failure path (it throws a configuration error),
yet it produces no LogRecord at all, contradicting "exactly one new
LogRecord ... on every failure path".
-/
theorem C2_counterexample :
    (fetchModels cfgCustomNoEp "id-9" 0 (.failure ⟨"TypeError", "Failed to fetch"⟩) 1 2).2
      = [] ∧
    applyLogs []
        (fetchModels cfgCustomNoEp "id-9" 0 (.failure ⟨"TypeError", "Failed to fetch"⟩) 1 2).2
      = [] :=
  ⟨rfl, rfl⟩

/-! ## Claim C4 — aggregation rule -/

/-- Average latency as claim C4 words it: sum of per-round latencies over
the number of rounds so far, rounded to nearest (Math.round semantics,
ties up). -/
def claimAvgLatencyC4 (runs : List RoundResult) : Nat :=
  jsRoundDiv ((runs.map (fun r => r.latency)).sum) runs.length

/-- Overall status as claim C4 words it: success if successCount > 0 else
error; tool mode: supported if successCount > 0, else error when zero
successes and at least one round's status is 'error', else unsupported. -/
def claimStatusC4 (mode : TestMode) (runs : List RoundResult) : String :=
  let sc := runs.countP (fun r => roundIsSuccess mode r)
  match mode with
  | .latency => if 0 < sc then "success" else "error"
  | .tool =>
    if 0 < sc then "supported"
    else if runs.any (fun r => r.status == "error") then "error"
    else "unsupported"

/--
C4: for every non-empty round sequence, the aggregate's average latency is
the rounded mean of the per-round latencies, its success count counts the
mode's success status, and its overall status follows the claimed rule
(tool mode: supported / error-on-any-errored-round / unsupported).
-/
theorem C4_aggregation_rule (mode : TestMode) (rounds : Nat) (runs : List RoundResult)
    (hne : runs ≠ []) :
    (aggregate mode rounds runs).avgLatency = claimAvgLatencyC4 runs ∧
    (aggregate mode rounds runs).successCount
      = runs.countP (fun r => roundIsSuccess mode r) ∧
    (aggregate mode rounds runs).status = claimStatusC4 mode runs := by
  refine ⟨rfl, rfl, ?_⟩
  clear hne
  unfold aggregate claimStatusC4
  cases mode with
  | latency => simp
  | tool =>
    by_cases hsc : 0 < runs.countP (fun r => roundIsSuccess .tool r)
    · simp [hsc, Nat.pos_iff_ne_zero.mp hsc]
    · have hz : runs.countP (fun r => roundIsSuccess .tool r) = 0 := Nat.eq_zero_of_not_pos hsc
      by_cases ha : runs.any (fun r => r.status == "error") = true
      · simp [hz, ha]
      · simp [hz, ha]

/-- Witness for C4 at a concrete two-round tool-mode sequence with zero
successes and one errored round: aggregate status is "error". -/
theorem C4_aggregation_rule_witness :
    ([⟨120, "unsupported", some "Model returned text instead of tool call"⟩,
      ⟨0, "error", some "HTTP 500"⟩] : List RoundResult) ≠ [] ∧
    (aggregate .tool 2
        [⟨120, "unsupported", some "Model returned text instead of tool call"⟩,
         ⟨0, "error", some "HTTP 500"⟩]).avgLatency
      = claimAvgLatencyC4
        [⟨120, "unsupported", some "Model returned text instead of tool call"⟩,
         ⟨0, "error", some "HTTP 500"⟩] ∧
    (aggregate .tool 2
        [⟨120, "unsupported", some "Model returned text instead of tool call"⟩,
         ⟨0, "error", some "HTTP 500"⟩]).status
      = claimStatusC4 .tool
        [⟨120, "unsupported", some "Model returned text instead of tool call"⟩,
         ⟨0, "error", some "HTTP 500"⟩] := by
  refine ⟨by decide, ?_, ?_⟩
  · exact (C4_aggregation_rule .tool 2 _ (by decide)).1
  · exact (C4_aggregation_rule .tool 2 _ (by decide)).2.2

/-! ## Claim C9 — aggregation fold determinism and latency commutativity -/

lemma perm_any_eq {l₁ l₂ : List RoundResult} (h : l₁.Perm l₂) (p : RoundResult → Bool) :
    l₁.any p = l₂.any p := by
  cases hb : l₂.any p
  · simp only [List.any_eq_false] at hb ⊢
    exact fun a ha => hb a (h.mem_iff.mp ha)
  · simp only [List.any_eq_true] at hb ⊢
    obtain ⟨a, ha, hp⟩ := hb
    exact ⟨a, h.mem_iff.mpr ha, hp⟩

/--
C9: the aggregation fold is deterministic — replaying the same ordered
round sequence from fresh state produces the identical sequence of
aggregates — and latency-commutative: permuting the rounds leaves the
average latency, the success count (and hence the derived status)
unchanged; only the last-round message field can differ.
-/
theorem C9_fold_deterministic_commutative :
    (∀ (mode : TestMode) (rounds : Nat) (seq : List RoundResult),
       foldRounds mode rounds seq = foldRounds mode rounds seq) ∧
    (∀ (mode : TestMode) (rounds : Nat) (l₁ l₂ : List RoundResult), l₁.Perm l₂ →
       (aggregate mode rounds l₁).avgLatency = (aggregate mode rounds l₂).avgLatency ∧
       (aggregate mode rounds l₁).successCount = (aggregate mode rounds l₂).successCount ∧
       (aggregate mode rounds l₁).status = (aggregate mode rounds l₂).status) := by
  refine ⟨fun _ _ _ => rfl, ?_⟩
  intro mode rounds l₁ l₂ h
  have hsum : (l₁.map (fun r => r.latency)).sum = (l₂.map (fun r => r.latency)).sum :=
    (h.map (fun r => r.latency)).sum_eq
  have hlen : l₁.length = l₂.length := h.length_eq
  have hcnt : l₁.countP (fun r => roundIsSuccess mode r)
      = l₂.countP (fun r => roundIsSuccess mode r) := h.countP_eq _
  have hany : l₁.any (fun r => r.status == "error")
      = l₂.any (fun r => r.status == "error") := perm_any_eq h _
  unfold aggregate
  simp only [hsum, hlen, hcnt, hany]
  exact ⟨trivial, trivial, trivial⟩

/-- Witness for C9 at a concrete permuted pair of rounds: swapping the two
rounds leaves average latency, success count and status unchanged. -/
theorem C9_fold_witness :
    ([⟨100, "success", none⟩, ⟨301, "error", some "HTTP 500"⟩] : List RoundResult).Perm
      [⟨301, "error", some "HTTP 500"⟩, ⟨100, "success", none⟩] ∧
    (aggregate .latency 2 [⟨100, "success", none⟩, ⟨301, "error", some "HTTP 500"⟩]).avgLatency
      = (aggregate .latency 2
          [⟨301, "error", some "HTTP 500"⟩, ⟨100, "success", none⟩]).avgLatency ∧
    (aggregate .latency 2 [⟨100, "success", none⟩, ⟨301, "error", some "HTTP 500"⟩]).successCount
      = (aggregate .latency 2
          [⟨301, "error", some "HTTP 500"⟩, ⟨100, "success", none⟩]).successCount := by
  have hperm : ([⟨100, "success", none⟩, ⟨301, "error", some "HTTP 500"⟩] : List RoundResult).Perm
      [⟨301, "error", some "HTTP 500"⟩, ⟨100, "success", none⟩] := List.Perm.swap _ _ _
  have h := C9_fold_deterministic_commutative.2 .latency 2 _ _ hperm
  exact ⟨hperm, h.1, h.2.1⟩

/-! ## Claim C6 — tool-support classification -/

/-- The multiset of tasks currently held in flight by the pool. -/
def busyTasks (ws : List (WStatus α)) : List α :=
  ws.filterMap WStatus.inflight

/-- Run invariant: every task is in exactly one of queue / in-flight /
results (counted with multiplicity); the queue holds no falsy task, so
the `if (modelId)` guard never discards one; once any worker has exited
the queue is empty (it only exits on observing emptiness, and the queue
never grows); and the pool is nonempty. -/
def SchedInv (tasks : List String) (s : SchedState String) : Prop :=
  (∀ a, s.queue.count a + (busyTasks s.workers).count a + s.results.count a = tasks.count a)
  ∧ "" ∉ s.queue
  ∧ (WStatus.done ∈ s.workers → s.queue = [])
  ∧ s.workers ≠ []

lemma sched_inv_init (tasks : List String) (W : Nat)
    (hW : 1 ≤ min W tasks.length) (htruthy : "" ∉ tasks) :
    SchedInv tasks (SchedState.init tasks W) := by
  refine ⟨?_, htruthy, ?_, ?_⟩
  · intro a
    have : busyTasks (List.replicate (min W tasks.length) (.idle : WStatus String)) = [] := by
      apply List.filterMap_eq_nil_iff.mpr
      intro w hw
      rw [List.eq_of_mem_replicate hw]
      rfl
    simp [SchedState.init, this]
  · intro hmem
    exfalso
    have := List.eq_of_mem_replicate hmem
    exact WStatus.noConfusion this
  · simp only [SchedState.init]
    intro h
    rw [List.replicate_eq_nil_iff] at h
    omega

lemma sched_step_inv {tasks : List String} {s s' : SchedState String}
    (hs : SchedStep s s') (hi : SchedInv tasks s) : SchedInv tasks s' := by
  obtain ⟨hcnt, hq, hdone, hne⟩ := hi
  cases hs with
  | pop t q l₁ l₂ rs ht =>
    refine ⟨?_, fun hmem => hq (List.mem_cons_of_mem _ hmem), ?_, by simp⟩
    · intro a
      have h := hcnt a
      simp only [busyTasks, List.filterMap_append, List.filterMap_cons,
        WStatus.inflight, List.count_append, List.count_cons] at h ⊢
      by_cases hta : t = a <;> simp [hta] at h ⊢ <;> omega
    · intro hmem
      exfalso
      have hpre : WStatus.done ∈ l₁ ++ WStatus.idle :: l₂ := by
        rcases List.mem_append.mp hmem with h1 | h2
        · exact List.mem_append.mpr (Or.inl h1)
        · rcases List.mem_cons.mp h2 with he | h3
          · exact WStatus.noConfusion he
          · exact List.mem_append.mpr (Or.inr (List.mem_cons_of_mem _ h3))
      exact List.noConfusion (hdone hpre)
  | drop q l₁ l₂ rs =>
    exact absurd (List.mem_cons_self _ _) hq
  | exit l₁ l₂ rs =>
    refine ⟨?_, hq, fun _ => rfl, by simp⟩
    intro a
    have h := hcnt a
    simp only [busyTasks, List.filterMap_append, List.filterMap_cons,
      WStatus.inflight, List.count_append] at h ⊢
    omega
  | finish t q l₁ l₂ rs =>
    refine ⟨?_, hq, ?_, by simp⟩
    · intro a
      have h := hcnt a
      simp only [busyTasks, List.filterMap_append, List.filterMap_cons,
        WStatus.inflight, List.count_append, List.count_cons] at h ⊢
      by_cases hta : t = a <;> simp [hta] at h ⊢ <;> omega
    · intro hmem
      apply hdone
      rcases List.mem_append.mp hmem with h1 | h2
      · exact List.mem_append.mpr (Or.inl h1)
      · rcases List.mem_cons.mp h2 with he | h3
        · exact WStatus.noConfusion he
        · exact List.mem_append.mpr (Or.inr (List.mem_cons_of_mem _ h3))

lemma sched_reaches_inv {tasks : List String} {s s' : SchedState String}
    (hr : SchedReaches s s') (hi : SchedInv tasks s) : SchedInv tasks s' := by
  induction hr with
  | refl => exact hi
  | tail _ hstep ih => exact sched_step_inv hstep ih

/--
C5 (amended): for a queue of N truthy (non-empty-string) tasks and worker
count W with 1 ≤ W ≤ N, any run of the scheduler that has resolved (every
worker exited) has produced exactly the N queued tasks as results: the
result list is a permutation of the task list, so it has length N and no
task occurs more often than it was queued — the atomic check-and-remove
dequeue assigns no task to two workers. A falsy (empty-string) task would
instead be dequeued and discarded without producing a result (see the
counterexample).
-/
theorem C5_scheduler_completeness
    (tasks : List String) (W : Nat) (hW1 : 1 ≤ W) (hWN : W ≤ tasks.length)
    (htruthy : "" ∉ tasks)
    (s' : SchedState String) (hr : SchedReaches (SchedState.init tasks W) s')
    (ht : s'.terminal) :
    s'.results.Perm tasks ∧ s'.results.length = tasks.length ∧
      ∀ t, s'.results.count t = tasks.count t := by
  have hmin : 1 ≤ min W tasks.length := le_min hW1 (le_trans hW1 hWN)
  have hinv := sched_reaches_inv hr (sched_inv_init tasks W hmin htruthy)
  obtain ⟨hcnt, hq, hdone, hne⟩ := hinv
  have hbusy : busyTasks s'.workers = [] := by
    apply List.filterMap_eq_nil_iff.mpr
    intro w hw
    rw [ht w hw]
    rfl
  have hqueue : s'.queue = [] := by
    obtain ⟨w, hw⟩ := List.exists_mem_of_ne_nil _ hne
    refine hdone ?_
    rw [← ht w hw]
    exact hw
  have hcount : ∀ t, s'.results.count t = tasks.count t := by
    intro t
    have h := hcnt t
    rw [hqueue, hbusy] at h
    simpa using h
  have hperm : s'.results.Perm tasks := List.perm_iff_count.mpr hcount
  exact ⟨hperm, hperm.length_eq, hcount⟩

/-- Witness for C5: a concrete two-task, one-worker run — pop/finish each
task in turn, then exit — reaches a terminal state whose results are a
permutation of the queue. -/
theorem C5_scheduler_completeness_witness :
    ((1 : Nat) ≤ 1 ∧ (1 : Nat) ≤ (["a", "b"] : List String).length
      ∧ "" ∉ (["a", "b"] : List String)) ∧
    (⟨[], [WStatus.done], ["a", "b"]⟩ : SchedState String).results.Perm ["a", "b"] := by
  refine ⟨⟨le_refl 1, by decide, by decide⟩, ?_⟩
  have hreach : SchedReaches (SchedState.init ["a", "b"] 1)
      (⟨[], [.done], ["a", "b"]⟩ : SchedState String) := by
    have h0 : SchedState.init ["a", "b"] 1
        = (⟨["a", "b"], [.idle], []⟩ : SchedState String) := rfl
    rw [h0]
    have s1 : SchedStep (⟨["a", "b"], [.idle], []⟩ : SchedState String)
        ⟨["b"], [.busy "a"], []⟩ := SchedStep.pop "a" ["b"] [] [] [] (by decide)
    have s2 : SchedStep (⟨["b"], [.busy "a"], []⟩ : SchedState String)
        ⟨["b"], [.idle], ["a"]⟩ := SchedStep.finish "a" ["b"] [] [] []
    have s3 : SchedStep (⟨["b"], [.idle], ["a"]⟩ : SchedState String)
        ⟨[], [.busy "b"], ["a"]⟩ := SchedStep.pop "b" [] [] [] ["a"] (by decide)
    have s4 : SchedStep (⟨[], [.busy "b"], ["a"]⟩ : SchedState String)
        ⟨[], [.idle], ["a", "b"]⟩ := SchedStep.finish "b" [] [] [] ["a"]
    have s5 : SchedStep (⟨[], [.idle], ["a", "b"]⟩ : SchedState String)
        ⟨[], [.done], ["a", "b"]⟩ := SchedStep.exit [] [] ["a", "b"]
    exact Relation.ReflTransGen.tail (Relation.ReflTransGen.tail
      (Relation.ReflTransGen.tail (Relation.ReflTransGen.tail
        (Relation.ReflTransGen.tail Relation.ReflTransGen.refl s1) s2) s3) s4) s5
  have hterm : (⟨[], [WStatus.done], ["a", "b"]⟩ : SchedState String).terminal := by
    intro w hw
    simpa using hw
  exact (C5_scheduler_completeness ["a", "b"] 1 (le_refl 1) (by decide) (by decide)
    _ hreach hterm).1

/--
C5 counterexample: the claim as stated fails on a queue holding a falsy
task. With the single task "" and one worker (N = W = 1), the run reaches
a resolved terminal state with zero results instead of one: the
`if (modelId)` guard discards the dequeued empty-string task, so no probe
runs and no result is recorded.
-/
theorem C5_counterexample :
    SchedReaches (SchedState.init [""] 1) ⟨[], [WStatus.done], []⟩ ∧
    SchedState.terminal (⟨[], [WStatus.done], []⟩ : SchedState String) ∧
    (⟨[], [WStatus.done], []⟩ : SchedState String).results.length = 0 ∧
    ([""] : List String).length = 1 := by
  refine ⟨?_, ?_, rfl, rfl⟩
  · have h0 : SchedState.init [""] 1 = (⟨[""], [.idle], []⟩ : SchedState String) := rfl
    rw [h0]
    have d1 : SchedStep (⟨[""], [.idle], []⟩ : SchedState String)
        ⟨[], [.idle], []⟩ := SchedStep.drop [] [] [] []
    have d2 : SchedStep (⟨[], [.idle], []⟩ : SchedState String)
        ⟨[], [.done], []⟩ := SchedStep.exit [] [] []
    exact Relation.ReflTransGen.tail
      (Relation.ReflTransGen.tail Relation.ReflTransGen.refl d1) d2
  · intro w hw
    simpa using hw

end ApiCheck
